import Mathlib

/-!
Verification development for the cf_ai_study_helper Cloudflare worker.

The JavaScript sources are shallowly embedded: JSON values (the data that
flows between handlers, the durable-object storage and the model) become an
inductive type; each source function becomes a Lean function of the same
name; the durable-object storage becomes explicit state passing; the
external model call becomes a parameter carrying the raw reply.
-/

/-- A JSON value, as produced by JSON.parse and stored in the durable
object.  Numbers are modelled as integers, which covers every reply and
stored value considered in this development. -/
inductive Json where
  | null : Json
  | bool : Bool → Json
  | num : Int → Json
  | str : String → Json
  | arr : List Json → Json
  | obj : List (String × Json) → Json
deriving Repr

/-- JavaScript truthiness of a JSON value. -/
def jsTruthy : Json → Bool
  | .null => false
  | .bool b => b
  | .num n => n != 0
  | .str s => s != ""
  | .arr _ => true
  | .obj _ => true

/-- The JavaScript typeof operator restricted to JSON values:
null and every object or array report the string "object". -/
def jsTypeof : Json → String
  | .null => "object"
  | .bool _ => "boolean"
  | .num _ => "number"
  | .str _ => "string"
  | .arr _ => "object"
  | .obj _ => "object"

/-- Whether the value is the JavaScript null. -/
def Json.isNull : Json → Bool
  | .null => true
  | _ => false

/-- Array.isArray. -/
def Json.isArr : Json → Bool
  | .arr _ => true
  | _ => false

/-- JavaScript property read obj[key]: a missing property is undefined,
modelled as none.  On arrays a numeric key indexes the elements. -/
def jsGet : Json → String → Option Json
  | .obj fields, k => fields.lookup k
  | .arr xs, k => (k.toNat?).bind fun i => xs.get? i
  | _, _ => none

/-- The JavaScript in operator (key in value) restricted to JSON values. -/
def jsHasProp (j : Json) (k : String) : Bool :=
  match j with
  | .obj fields => fields.any (fun p => p.1 == k)
  | .arr xs =>
    match k.toNat? with
    | some i => i < xs.length
    | none => false
  | _ => false

/-- Truthiness of a possibly-undefined JavaScript value
(undefined, modelled as none, is falsy). -/
def jsTruthyOpt : Option Json → Bool
  | none => false
  | some v => jsTruthy v

/-- Whitespace characters removed by String.prototype.trim. -/
def isJsWs : Char → Bool
  | ' ' | '\t' | '\n' | '\r' | '\x0c' | '\x0b' => true
  | _ => false

/-- String.prototype.trim on a character list. -/
def trimJS (s : List Char) : List Char :=
  ((s.dropWhile isJsWs).reverse.dropWhile isJsWs).reverse

/-- The regex match used by the decoder: an opening brace, any characters,
a closing brace, with a greedy middle.  The match, when it exists, runs
from the first opening brace to the last closing brace of the string. -/
def extractJsonSpan (cs : List Char) : Option (List Char) :=
  let fromBrace := cs.dropWhile (fun c => c != '\x7b')
  let span := (fromBrace.reverse.dropWhile (fun c => c != '\x7d')).reverse
  if span.isEmpty then none else some span

/-- JSON grammar whitespace (accepted by JSON.parse between tokens). -/
def isJsonWs : Char → Bool
  | ' ' | '\t' | '\n' | '\r' => true
  | _ => false

/-- Skip JSON whitespace. -/
def skipWsJson (cs : List Char) : List Char := cs.dropWhile isJsonWs

/-- Parse the body of a JSON string literal after the opening quote;
returns the decoded characters and the input after the closing quote.
The escapes appearing in the replies considered here are supported. -/
def parseStringBody : List Char → Option (List Char × List Char)
  | [] => none
  | '"' :: rest => some ([], rest)
  | '\\' :: c :: rest =>
    let esc : Option Char :=
      match c with
      | '"' => some '"'
      | '\\' => some '\\'
      | '/' => some '/'
      | 'n' => some '\n'
      | 't' => some '\t'
      | 'r' => some '\r'
      | 'b' => some '\x08'
      | 'f' => some '\x0c'
      | _ => none
    match esc with
    | some e => (parseStringBody rest).map fun p => (e :: p.1, p.2)
    | none => none
  | c :: rest => (parseStringBody rest).map fun p => (c :: p.1, p.2)

/-- Digits to a natural number. -/
def digitsToNat (ds : List Char) : Nat :=
  ds.foldl (fun a c => a * 10 + (c.toNat - 48)) 0

/-- Parse a JSON integer literal (optional minus sign, then digits). -/
def parseNumber (cs : List Char) : Option (Json × List Char) :=
  let signed := match cs with
    | '-' :: r => (true, r)
    | _ => (false, cs)
  let ds := signed.2.takeWhile Char.isDigit
  let rest := signed.2.dropWhile Char.isDigit
  if ds.isEmpty then none
  else
    let n : Int := Int.ofNat (digitsToNat ds)
    some (.num (if signed.1 then -n else n), rest)

mutual

/-- Parse one JSON value; fuel bounds the recursion depth. -/
def parseValue : Nat → List Char → Option (Json × List Char)
  | 0, _ => none
  | fuel + 1, cs =>
    match skipWsJson cs with
    | '\x7b' :: rest =>
      match skipWsJson rest with
      | '\x7d' :: r => some (.obj [], r)
      | _ => (parseMembers fuel rest).map fun p => (.obj p.1, p.2)
    | '[' :: rest =>
      match skipWsJson rest with
      | ']' :: r => some (.arr [], r)
      | _ => (parseElements fuel rest).map fun p => (.arr p.1, p.2)
    | '"' :: rest => (parseStringBody rest).map fun p => (.str (String.mk p.1), p.2)
    | 't' :: 'r' :: 'u' :: 'e' :: rest => some (.bool true, rest)
    | 'f' :: 'a' :: 'l' :: 's' :: 'e' :: rest => some (.bool false, rest)
    | 'n' :: 'u' :: 'l' :: 'l' :: rest => some (.null, rest)
    | cs2 => parseNumber cs2

/-- Parse the members of a JSON object up to and including the closing
brace (the object is known to be nonempty). -/
def parseMembers : Nat → List Char → Option (List (String × Json) × List Char)
  | 0, _ => none
  | fuel + 1, cs =>
    match skipWsJson cs with
    | '"' :: rest =>
      match parseStringBody rest with
      | none => none
      | some (key, r1) =>
        match skipWsJson r1 with
        | ':' :: r2 =>
          match parseValue fuel r2 with
          | none => none
          | some (v, r3) =>
            match skipWsJson r3 with
            | ',' :: r4 =>
              (parseMembers fuel r4).map fun p => ((String.mk key, v) :: p.1, p.2)
            | '\x7d' :: r4 => some ([(String.mk key, v)], r4)
            | _ => none
        | _ => none
    | _ => none

/-- Parse the elements of a JSON array up to and including the closing
bracket (the array is known to be nonempty). -/
def parseElements : Nat → List Char → Option (List Json × List Char)
  | 0, _ => none
  | fuel + 1, cs =>
    match parseValue fuel cs with
    | none => none
    | some (v, r1) =>
      match skipWsJson r1 with
      | ',' :: r2 => (parseElements fuel r2).map fun p => (v :: p.1, p.2)
      | ']' :: r2 => some ([v], r2)
      | _ => none

end

/-- JSON.parse on a character list: one value, then only trailing
whitespace; anything else is a syntax error, modelled as none. -/
def jsonParse (cs : List Char) : Option Json :=
  match parseValue (2 * cs.length + 4) cs with
  | some (v, rest) => if (skipWsJson rest).isEmpty then some v else none
  | none => none

/-- The distinct failures the decoder in json-parser.js can raise.  The
first four carry the four documented error messages; jsonSyntaxError is
the raw exception escaping JSON.parse when the extracted brace span is
not valid JSON. -/
inductive DecodeError where
  | noJsonFound
  | unexpectedFormat
  | missingField (key : String)
  | wrongFieldType (key : String) (expected : String)
  | jsonSyntaxError
deriving Repr, DecidableEq

/-- The reply object returned by env.AI.run; its response field is free
text or an already-structured value. -/
structure AIResponse where
  response : Json

/-- The expected-structure loop of parseAIResponse: for each declared
field, in order, a missing key fails; a field declared array must satisfy
Array.isArray; a field declared object must have typeof "object". -/
def checkFields (parsedData : Json) : List (String × String) → Except DecodeError Json
  | [] => .ok parsedData
  | (key, expectedType) :: rest =>
    if !(jsHasProp parsedData key) then .error (.missingField key)
    else
      let v := (jsGet parsedData key).getD .null
      if expectedType == "array" && !(v.isArr) then
        .error (.wrongFieldType key "array")
      else if expectedType == "object" && jsTypeof v != "object" then
        .error (.wrongFieldType key "object")
      else checkFields parsedData rest

/-- parseAIResponse from json-parser.js: a non-null object reply is used
as-is; a string reply is trimmed, its first-brace-to-last-brace span is
extracted and passed to JSON.parse; any other reply is an unexpected
format.  The parsed value is then checked against the expected
structure. -/
def parseAIResponse (response : AIResponse) (expectedStructure : List (String × String)) :
    Except DecodeError Json := do
  let responseData := response.response
  let parsedData ←
    if jsTypeof responseData == "object" && !responseData.isNull then
      Except.ok responseData
    else
      match responseData with
      | .str s =>
        let responseText := trimJS s.data
        match extractJsonSpan responseText with
        | some span =>
          match jsonParse span with
          | some v => Except.ok v
          | none => Except.error .jsonSyntaxError
        | none => Except.error .noJsonFound
      | _ => Except.error .unexpectedFormat
  checkFields parsedData expectedStructure




mutual

/-- String(value) as used by parseInt on a non-string argument: arrays
join their elements with commas, plain objects print as
"[object Object]". -/
def jsToString : Json → String
  | .null => "null"
  | .bool b => if b then "true" else "false"
  | .num n => toString n
  | .str s => s
  | .arr xs => String.intercalate "," (jsToStringList xs)
  | .obj _ => "[object Object]"

/-- Array.prototype.join prints null elements as empty. -/
def jsToStringList : List Json → List String
  | [] => []
  | x :: xs => (if x.isNull then "" else jsToString x) :: jsToStringList xs

end

/-- parseInt(s, 10): skip leading whitespace, read an optional sign and
then leading decimal digits; no digits means NaN, modelled as none. -/
def parseIntStr (s : String) : Option Int :=
  let cs := s.data.dropWhile isJsWs
  let signed : Bool × List Char :=
    match cs with
    | '-' :: r => (true, r)
    | '+' :: r => (false, r)
    | _ => (false, cs)
  let ds := signed.2.takeWhile Char.isDigit
  if ds.isEmpty then none
  else
    let n : Int := Int.ofNat (digitsToNat ds)
    some (if signed.1 then -n else n)

/-- parseInt(count, 10) on an arbitrary JSON value: the argument is first
converted to a string. -/
def parseIntJS (v : Json) : Option Int := parseIntStr (jsToString v)

/-- validateCount from validators.js. -/
def validateCount (count : Json) (min max : Int) : Int :=
  match parseIntJS count with
  | none => min
  | some num =>
    if num < min then min
    else if num > max then max
    else num

/-- validateClassName from validators.js: a falsy or non-string value is
rejected as required, a whitespace-only string as empty. -/
def validateClassName : Json → Except String Unit
  | .str s =>
    if s == "" then .error "Class name is required"
    else if (trimJS s.data).isEmpty then .error "Class name cannot be empty"
    else .ok ()
  | _ => .error "Class name is required"

/-- validateAnswers from validators.js. -/
def validateAnswers : Json → Except String Unit
  | .arr xs =>
    if xs.isEmpty then .error "Answers array cannot be empty"
    else .ok ()
  | _ => .error "Answers array is required"

/-- One grading input record, as assembled by AIService.gradeTest. -/
structure GradingInput where
  question : Option Json
  correctAnswer : Option Json
  studentAnswer : Option Json
  points : Json
deriving Repr

/-- The questionsAndAnswers array built inside AIService.gradeTest: one
record per question; studentAnswer is answers[i] (undefined past the end
of the answers array); points is q.points or, when that is falsy, 10. -/
def questionsAndAnswers (questions : List Json) (answers : List Json) : List GradingInput :=
  questions.enum.map fun iq =>
    { question := jsGet iq.2 "question"
      correctAnswer := jsGet iq.2 "correctAnswer"
      studentAnswer := answers.get? iq.1
      points :=
        match jsGet iq.2 "points" with
        | some p => if jsTruthy p then p else .num 10
        | none => .num 10 }

/-- The persisted keys of one ChatStorage durable object; a key never
written is absent. -/
structure DOStorage where
  session : Option Json := none
  content : Option Json := none
  progress : Option Json := none
deriving Repr

/-- An HTTP response reduced to what the claims observe: a status code
and a JSON (or plain text) body. -/
structure HttpResponse where
  status : Nat
  body : Json
deriving Repr

/-- ChatStorage.fetch from chatStorage.js, translated branch for branch
in source order.  The first branch matches the /session path with no
method guard, so it also captures POST /session and the write branch
below it is unreachable, exactly as in the source. -/
def ChatStorage.fetch (method : String) (path : String) (body : Json) (st : DOStorage) :
    HttpResponse × DOStorage :=
  if path == "/session" then
    ({ status := 200, body := if jsTruthyOpt st.session then st.session.getD .null else .obj [] }, st)
  else if path == "/session" && method == "POST" then
    ({ status := 200, body := .obj [("success", .bool true)] }, { st with session := some body })
  else if path == "/content" && method == "POST" then
    ({ status := 200, body := .obj [("success", .bool true)] }, { st with content := some body })
  else if path == "/content" then
    ({ status := 200, body := if jsTruthyOpt st.content then st.content.getD .null else .null }, st)
  else if path == "/progress" && method == "POST" then
    ({ status := 200, body := .obj [("success", .bool true)] }, { st with progress := some body })
  else if path == "/progress" then
    ({ status := 200, body := if jsTruthyOpt st.progress then st.progress.getD .null else .obj [] }, st)
  else if path == "/clear" && method == "POST" then
    ({ status := 200, body := .obj [("success", .bool true)] }, {})
  else
    ({ status := 404, body := .str "Not Found" }, st)

/-- The family of durable objects, one per session name (idFromName). -/
def Store := String → DOStorage

/-- The store before any write: every session name maps to an object
with no stored keys. -/
def Store.init : Store := fun _ => {}

/-- Replace the durable object of one session name. -/
def Store.update (store : Store) (sessionId : String) (st : DOStorage) : Store :=
  fun k => if k == sessionId then st else store k

/-- StorageService.getSession: GET /session on the durable object of the
session. -/
def StorageService.getSession (store : Store) (sessionId : String) : Json :=
  (ChatStorage.fetch "GET" "/session" .null (store sessionId)).1.body

/-- StorageService.saveSession: POST /session with the metadata body. -/
def StorageService.saveSession (store : Store) (sessionId : String) (sessionData : Json) : Store :=
  Store.update store sessionId (ChatStorage.fetch "POST" "/session" sessionData (store sessionId)).2

/-- StorageService.getContent: GET /content. -/
def StorageService.getContent (store : Store) (sessionId : String) : Json :=
  (ChatStorage.fetch "GET" "/content" .null (store sessionId)).1.body

/-- StorageService.saveContent: POST /content with the content body. -/
def StorageService.saveContent (store : Store) (sessionId : String) (content : Json) : Store :=
  Store.update store sessionId (ChatStorage.fetch "POST" "/content" content (store sessionId)).2

/-- StorageService.getProgress: GET /progress. -/
def StorageService.getProgress (store : Store) (sessionId : String) : Json :=
  (ChatStorage.fetch "GET" "/progress" .null (store sessionId)).1.body

/-- StorageService.saveProgress: POST /progress with the grading body. -/
def StorageService.saveProgress (store : Store) (sessionId : String) (progress : Json) : Store :=
  Store.update store sessionId (ChatStorage.fetch "POST" "/progress" progress (store sessionId)).2

/-- jsonResponse from response-helpers. -/
def jsonResponse (data : Json) (status : Nat) : HttpResponse :=
  { status := status, body := data }

/-- errorResponse from response-helpers: the body carries the message
and, when truthy, the details. -/
def errorResponse (message : String) (status : Nat) (details : Option String) : HttpResponse :=
  { status := status
    body := .obj (("error", .str message) ::
      (match details with
       | some d => if d != "" then [("details", .str d)] else []
       | none => [])) }

/-- String.prototype.includes. -/
def strIncludes (s pat : String) : Bool :=
  (List.range (s.data.length + 1)).any fun i => List.isPrefixOf pat.data (s.data.drop i)

/-- The catch clause shared by the study handlers: a message containing
required or empty maps to a 400, everything else to a 500 with
details. -/
def handlerCatch (msg : String) : HttpResponse :=
  if strIncludes msg "required" || strIncludes msg "empty" then
    errorResponse msg 400 none
  else
    errorResponse msg 500 (some msg)

/-- The elements of a JSON array value ([] on any other value). -/
def jsArrElems : Json → List Json
  | .arr xs => xs
  | _ => []

/-- AIService.gradeTest: builds the questionsAndAnswers records, invokes
the model (its raw reply is the aiResp parameter) and decodes the reply
expecting a results array; a decode failure is rethrown with a fixed
message. -/
def AIService.gradeTest (questions : List Json) (answers : List Json) (aiResp : AIResponse) :
    Except String Json :=
  let _inputs := questionsAndAnswers questions answers
  match parseAIResponse aiResp [("results", "array")] with
  | .ok v => .ok v
  | .error _ => .error "Failed to grade test. Please try again."

/-- AIService.generateFlashcards: invokes the model and decodes the
reply expecting a flashcards array. -/
def AIService.generateFlashcards (aiResp : AIResponse) : Except String Json :=
  match parseAIResponse aiResp [("flashcards", "array")] with
  | .ok v => .ok v
  | .error _ => .error "Failed to generate flashcards. Please try again."

/-- handleGradeTest from grade-test.js: validate the answers, read the
stored content, fail with a 400 when there is no test, otherwise grade
and save the grading into the progress key. -/
def handleGradeTest (answers : Json) (sessionId : String) (aiResp : AIResponse) (store : Store) :
    HttpResponse × Store :=
  match validateAnswers answers with
  | .error msg => (handlerCatch msg, store)
  | .ok _ =>
    let content := StorageService.getContent store sessionId
    if !(jsTruthy content) || !(jsTruthyOpt (jsGet content "questions")) then
      (errorResponse "No test found for this session" 400 none, store)
    else
      match AIService.gradeTest (jsArrElems ((jsGet content "questions").getD .null))
          (jsArrElems answers) aiResp with
      | .error msg => (handlerCatch msg, store)
      | .ok grading => (jsonResponse grading 200, StorageService.saveProgress store sessionId grading)

/-- handleGenerateFlashcards from generate-flashcards.js: validate the
class name, clamp the count, generate and decode the flashcards, then
save the session metadata and the content. -/
def handleGenerateFlashcards (className : Json) (topic : String) (sessionId : String)
    (count : Json) (aiResp : AIResponse) (store : Store) : HttpResponse × Store :=
  match validateClassName className with
  | .error msg => (handlerCatch msg, store)
  | .ok _ =>
    let _validatedCount := validateCount count 1 50
    match AIService.generateFlashcards aiResp with
    | .error msg => (handlerCatch msg, store)
    | .ok flashcards =>
      let store1 := StorageService.saveSession store sessionId
        (.obj [("className", className), ("mode", .str "flashcards"), ("topic", .str topic)])
      let store2 := StorageService.saveContent store1 sessionId flashcards
      (jsonResponse flashcards 200, store2)

/-- handleGetSession from get-session.js: a falsy sessionId query value
falls back to the default, then the session metadata is returned. -/
def handleGetSession (sessionId : Option String) (store : Store) : HttpResponse :=
  let sid := match sessionId with
    | some s => if s != "" then s else "default"
    | none => "default"
  jsonResponse (StorageService.getSession store sid) 200

/-- One chat turn as stored in the conversation history. -/
structure ChatTurn where
  role : String
  content : String
deriving Repr, DecidableEq

/-- The last n elements of a list. -/
def takeLast (n : Nat) (l : List α) : List α := l.drop (l.length - n)

/-- Modelled from the spec: the chat durable object behind the internal
/history and /add routes is not among the provided sources (only its
caller handleChat is).  Following the spec, the /add route reads the
current history, appends the user turn then the assistant turn, trims to
the last 20 entries dropping the oldest first, and writes back. -/
def appendHistory (history : List ChatTurn) (userTurn assistantTurn : ChatTurn) : List ChatTurn :=
  takeLast 20 (history ++ [userTurn, assistantTurn])

/-- Modelled from the spec: the /history route of the chat durable
object returns the stored history, or the empty sequence before any
write. -/
def getHistory (stored : Option (List ChatTurn)) : List ChatTurn := stored.getD []

/-- handleChat from the chat worker entry: a falsy message is a 400;
otherwise the model is invoked on the system instruction, the stored
history and the new user message, the reply is returned together with
the session id, and the user and assistant turns are appended to the
history through the durable object /add route. -/
def handleChat (message : Option String) (sessionId : String) (aiReply : String)
    (history : List ChatTurn) : HttpResponse × List ChatTurn :=
  if !(jsTruthyOpt (message.map .str)) then
    (errorResponse "Message is required" 400 none, history)
  else
    let m := message.getD ""
    let _messages : List ChatTurn :=
      { role := "system",
        content := "You are a helpful AI assistant. Be concise, friendly, and informative." } ::
      history ++ [{ role := "user", content := m }]
    let assistantMessage := aiReply
    let newHistory := appendHistory history
      { role := "user", content := m } { role := "assistant", content := assistantMessage }
    (jsonResponse (.obj [("response", .str assistantMessage), ("sessionId", .str sessionId)]) 200,
      newHistory)

/-- Classifier for the DecodeError taxonomy of the spec: the four
documented error kinds, without the raw JSON syntax error. -/
def DecodeError.inSpecTaxonomy : DecodeError → Bool
  | .noJsonFound => true
  | .unexpectedFormat => true
  | .missingField _ => true
  | .wrongFieldType _ _ => true
  | .jsonSyntaxError => false

theorem takeLast_length (n : Nat) (l : List α) : (takeLast n l).length = min n l.length := by
  simp only [takeLast, List.length_drop]
  omega

theorem takeLast_of_le {n : Nat} {l : List α} (h : l.length ≤ n) : takeLast n l = l := by
  unfold takeLast
  rw [Nat.sub_eq_zero_of_le h, List.drop_zero]

theorem takeLast_append_takeLast (n : Nat) (xs ys : List α) :
    takeLast n (takeLast n xs ++ ys) = takeLast n (xs ++ ys) := by
  by_cases h : xs.length ≤ n
  · rw [takeLast_of_le h]
  · unfold takeLast
    rw [List.drop_append_eq_append_drop, List.drop_append_eq_append_drop, List.drop_drop]
    congr 1
    · congr 1
      simp only [List.length_drop, List.length_append]
      omega
    · congr 1
      simp only [List.length_drop, List.length_append]
      omega

theorem appendHistory_foldl (pairs : List (ChatTurn × ChatTurn)) :
    ∀ acc, pairs.foldl (fun h p => appendHistory h p.1 p.2) (takeLast 20 acc) =
      takeLast 20 (acc ++ pairs.flatMap fun p => [p.1, p.2]) := by
  induction pairs with
  | nil => intro acc; simp
  | cons p ps ih =>
    intro acc
    rw [List.foldl_cons]
    show ps.foldl (fun h p => appendHistory h p.1 p.2)
      (takeLast 20 (takeLast 20 acc ++ [p.1, p.2])) = _
    rw [takeLast_append_takeLast]
    have h2 := ih (acc ++ [p.1, p.2])
    simpa [List.append_assoc] using h2

theorem flatMap_pairs_length (pairs : List (ChatTurn × ChatTurn)) :
    (pairs.flatMap fun p => [p.1, p.2]).length = 2 * pairs.length := by
  induction pairs with
  | nil => rfl
  | cons p ps ih =>
    simp only [List.flatMap_cons, List.length_append, List.length_cons, ih, List.length_nil,
      List.length_cons]
    omega

/-- Claim C1: the spec says a generate operation writes the session
metadata and a later GET /api/session returns exactly that metadata.  In
the code the first /session branch of ChatStorage.fetch has no method
guard, so a POST /session is answered by the read branch and the write
below it is dead: after a successful generate-flashcards call the
session key is still absent and GET /api/session returns the empty
mapping. -/
theorem c1_session_metadata_write_dropped :
    (handleGenerateFlashcards (.str "Math") "algebra" "s1" (.num 10)
      ⟨.obj [("flashcards", .arr [.obj [("question", .str "Q"), ("answer", .str "A")]])]⟩
      Store.init).1.status = 200 ∧
    ((handleGenerateFlashcards (.str "Math") "algebra" "s1" (.num 10)
      ⟨.obj [("flashcards", .arr [.obj [("question", .str "Q"), ("answer", .str "A")]])]⟩
      Store.init).2 "s1").session = none ∧
    handleGetSession (some "s1")
      (handleGenerateFlashcards (.str "Math") "algebra" "s1" (.num 10)
        ⟨.obj [("flashcards", .arr [.obj [("question", .str "Q"), ("answer", .str "A")]])]⟩
        Store.init).2 =
      jsonResponse (.obj []) 200 :=
  ⟨rfl, rfl, rfl⟩

/-- Claim C2: the stored history never exceeds 20 entries after an
append; a sequence of appends starting from the empty history leaves
exactly the last 20 entries of the full user/assistant turn sequence,
oldest dropped first and order preserved among survivors; in particular
appending more than 10 pairs leaves exactly 20 entries. -/
theorem c2_history_trim (pairs : List (ChatTurn × ChatTurn)) :
    (∀ (h : List ChatTurn) (u a : ChatTurn), (appendHistory h u a).length ≤ 20) ∧
    pairs.foldl (fun h p => appendHistory h p.1 p.2) [] =
      takeLast 20 (pairs.flatMap fun p => [p.1, p.2]) ∧
    (10 < pairs.length →
      (pairs.foldl (fun h p => appendHistory h p.1 p.2) []).length = 20) := by
  refine ⟨?_, ?_, ?_⟩
  · intro h u a
    have := takeLast_length 20 (h ++ [u, a])
    simp only [appendHistory]
    omega
  · have h0 : (takeLast 20 ([] : List ChatTurn)) = [] := rfl
    have h2 := appendHistory_foldl pairs []
    rw [h0] at h2
    simpa using h2
  · intro hlen
    have h0 : (takeLast 20 ([] : List ChatTurn)) = [] := rfl
    have h2 := appendHistory_foldl pairs []
    rw [h0] at h2
    simp only [List.nil_append] at h2
    rw [h2, takeLast_length, flatMap_pairs_length]
    omega

/-- Witness for claim C2 at eleven concrete pairs. -/
theorem c2_history_trim_witness :
    10 < (List.replicate 11 ((⟨"user", "u"⟩ : ChatTurn), (⟨"assistant", "a"⟩ : ChatTurn))).length ∧
    ((List.replicate 11 ((⟨"user", "u"⟩ : ChatTurn), (⟨"assistant", "a"⟩ : ChatTurn))).foldl
      (fun h p => appendHistory h p.1 p.2) []).length = 20 :=
  ⟨by simp, (c2_history_trim _).2.2 (by simp)⟩

/-- Claim C3, counterexample: the empty string is a present (non-missing)
message, yet handleChat answers it with the 400 required-message error
and appends nothing, so the claim as stated fails at message = "". -/
theorem c3_empty_message_counterexample :
    handleChat (some "") "default" "reply" [] =
      (errorResponse "Message is required" 400 none, []) := rfl

/-- Claim C3 as amended: for a present and non-empty message, handleChat
returns the model reply and the session id with status 200 and appends
the user turn then the assistant turn to the history (through the
trimming append); a missing message gets a 400. -/
theorem c3_chat_reply_and_append (message : String) (hm : message ≠ "")
    (sessionId aiReply : String) (history : List ChatTurn) :
    handleChat (some message) sessionId aiReply history =
      (jsonResponse (.obj [("response", .str aiReply), ("sessionId", .str sessionId)]) 200,
        appendHistory history ⟨"user", message⟩ ⟨"assistant", aiReply⟩) ∧
    (handleChat none sessionId aiReply history).1 =
      errorResponse "Message is required" 400 none := by
  constructor
  · unfold handleChat
    have ht : jsTruthyOpt ((some message).map Json.str) = true := by
      simp [jsTruthyOpt, jsTruthy, hm]
    rw [ht]
    rfl
  · rfl

/-- Witness for the amended claim C3 at a concrete message. -/
theorem c3_chat_reply_and_append_witness :
    ("hi" : String) ≠ "" ∧
    handleChat (some "hi") "default" "hello" [] =
      (jsonResponse (.obj [("response", .str "hello"), ("sessionId", .str "default")]) 200,
        appendHistory [] ⟨"user", "hi"⟩ ⟨"assistant", "hello"⟩) :=
  ⟨by decide, (c3_chat_reply_and_append "hi" (by decide) "default" "hello" []).1⟩

/-- Claim C4: the decoder satisfies the three example cases: the prose
wrapped flashcards reply decodes to the flashcards object; a string with
no JSON at all fails with the no-JSON error; an already-an-object reply
whose flashcards field is a string fails with the wrong-field-type
error. -/
theorem c4_decoder_examples :
    parseAIResponse
      ⟨.str "Here you go: \x7b\"flashcards\":[\x7b\"question\":\"Q\",\"answer\":\"A\"\x7d]\x7d thanks"⟩
      [("flashcards", "array")] =
      .ok (.obj [("flashcards", .arr [.obj [("question", .str "Q"), ("answer", .str "A")]])]) ∧
    parseAIResponse ⟨.str "no json here"⟩ [("flashcards", "array")] =
      .error .noJsonFound ∧
    parseAIResponse ⟨.obj [("flashcards", .str "notarray")]⟩ [("flashcards", "array")] =
      .error (.wrongFieldType "flashcards" "array") :=
  ⟨rfl, rfl, rfl⟩

/-- Claim C5: grade-test with a valid answers array for a session whose
content slot is empty or whose content has no questions field answers
with the 400 no-test error, and the store (in particular the progress
key) is left unchanged. -/
theorem c5_grade_test_not_found (answers : Json) (sessionId : String) (aiResp : AIResponse)
    (store : Store)
    (hval : validateAnswers answers = .ok ())
    (hcontent : StorageService.getContent store sessionId = .null ∨
      jsGet (StorageService.getContent store sessionId) "questions" = none) :
    handleGradeTest answers sessionId aiResp store =
      (errorResponse "No test found for this session" 400 none, store) := by
  have hcond : (!(jsTruthy (StorageService.getContent store sessionId)) ||
      !(jsTruthyOpt (jsGet (StorageService.getContent store sessionId) "questions"))) = true := by
    rcases hcontent with h | h
    · rw [h]; rfl
    · rw [h]; simp [jsTruthyOpt]
  unfold handleGradeTest
  rw [hval]
  simp only [hcond, if_true]

/-- Witness for claim C5: a nonempty answers array against the initial
store, whose content slot is the null default. -/
theorem c5_grade_test_not_found_witness :
    validateAnswers (.arr [.str "A"]) = .ok () ∧
    StorageService.getContent Store.init "default" = .null ∧
    handleGradeTest (.arr [.str "A"]) "default" ⟨.null⟩ Store.init =
      (errorResponse "No test found for this session" 400 none, Store.init) :=
  ⟨rfl, rfl, c5_grade_test_not_found (.arr [.str "A"]) "default" ⟨.null⟩ Store.init rfl (Or.inl rfl)⟩

/-- Claim C6, counterexample: the grading input built for a question
whose points field is 0 carries 10 points, not 0, because the code uses
a truthiness fallback rather than a nullish one; this refutes the claim
that a 0-points question keeps 0 points. -/
theorem c6_points_zero_counterexample :
    ¬ ((questionsAndAnswers
        [.obj [("question", .str "q1"), ("correctAnswer", .str "a1"), ("points", .num 0)]]
        [.str "s1"]).map GradingInput.points = [.num 0]) := by
  intro h
  have h2 : ([Json.num 10] : List Json) = [Json.num 0] := h
  simp at h2

/-- Claim C6 as amended: gradeTest builds exactly one input record per
question, pairing the question and correct answer with the student
answer at the same index (undefined, not an error, when the answers
array is shorter) and with points q.points-or-10 where any falsy points
value, including 0, falls back to 10. -/
theorem c6_grading_inputs (questions answers : List Json) (i : Nat) :
    (questionsAndAnswers questions answers).length = questions.length ∧
    (questionsAndAnswers questions answers)[i]? = (questions[i]?).map fun q =>
      { question := jsGet q "question"
        correctAnswer := jsGet q "correctAnswer"
        studentAnswer := answers[i]?
        points :=
          match jsGet q "points" with
          | some p => if jsTruthy p then p else .num 10
          | none => .num 10 } := by
  constructor
  · simp [questionsAndAnswers]
  · simp only [questionsAndAnswers, List.getElem?_map, List.getElem?_enum]
    cases questions[i]? with
    | none => rfl
    | some q => simp [List.get?_eq_getElem?]

/-- Claim C7: validateCount clamps into [1, 50]: a non-numeric input
(one whose parseInt is NaN) gives the minimum 1, an input parsing below
the minimum gives 1, above the maximum gives 50, and in range the parsed
input is returned unchanged; the four example cases hold. -/
theorem c7_validateCount_clamping :
    (∀ c : Json, parseIntJS c = none → validateCount c 1 50 = 1) ∧
    (∀ (c : Json) (n : Int), parseIntJS c = some n →
      (n < 1 → validateCount c 1 50 = 1) ∧
      (n > 50 → validateCount c 1 50 = 50) ∧
      (1 ≤ n → n ≤ 50 → validateCount c 1 50 = n)) ∧
    validateCount (.str "abc") 1 50 = 1 ∧
    validateCount (.num 0) 1 50 = 1 ∧
    validateCount (.num 75) 1 50 = 50 ∧
    validateCount (.num 7) 1 50 = 7 := by
  refine ⟨?_, ?_, rfl, rfl, rfl, rfl⟩
  · intro c h
    unfold validateCount
    rw [h]
  · intro c n h
    unfold validateCount
    rw [h]
    refine ⟨?_, ?_, ?_⟩
    · intro h1
      simp only [if_pos h1]
    · intro h1
      have hn1 : ¬ (n < 1) := by omega
      simp only [if_neg hn1, if_pos h1]
    · intro h1 h2
      have hn1 : ¬ (n < 1) := by omega
      have hn2 : ¬ (n > 50) := by omega
      simp only [if_neg hn1, if_neg hn2]

/-- Witness for claim C7 at two concrete inputs, one non-numeric and one
above the maximum. -/
theorem c7_validateCount_clamping_witness :
    parseIntJS (.str "zzz") = none ∧ validateCount (.str "zzz") 1 50 = 1 ∧
    parseIntJS (.num 99) = some 99 ∧ (99 : Int) > 50 ∧ validateCount (.num 99) 1 50 = 50 :=
  ⟨rfl, c7_validateCount_clamping.1 (.str "zzz") rfl, rfl, by omega,
    (c7_validateCount_clamping.2.1 (.num 99) 99 rfl).2.1 (by omega)⟩

/-- Claim C8: before any write, every slot read returns its documented
default for every session id — the empty mapping for metadata and
progress, null for content, the empty sequence for history — and each
read succeeds with status 200 rather than failing. -/
theorem c8_get_slot_defaults :
    (∀ sessionId, StorageService.getSession Store.init sessionId = .obj [] ∧
      (ChatStorage.fetch "GET" "/session" .null (Store.init sessionId)).1.status = 200) ∧
    (∀ sessionId, StorageService.getContent Store.init sessionId = .null ∧
      (ChatStorage.fetch "GET" "/content" .null (Store.init sessionId)).1.status = 200) ∧
    (∀ sessionId, StorageService.getProgress Store.init sessionId = .obj [] ∧
      (ChatStorage.fetch "GET" "/progress" .null (Store.init sessionId)).1.status = 200) ∧
    getHistory none = [] :=
  ⟨fun _ => ⟨rfl, rfl⟩, fun _ => ⟨rfl, rfl⟩, fun _ => ⟨rfl, rfl⟩, rfl⟩

/-- Claim C9: in the expected-field check a field declared object is
checked with typeof, and typeof is "object" for null and for arrays, so
decoding succeeds on replies whose declared-object field is null or an
array. -/
theorem c9_object_kind_accepts_null_and_array (k : String) (elems : List Json) :
    jsTypeof .null = "object" ∧ jsTypeof (.arr elems) = "object" ∧
    parseAIResponse ⟨.obj [(k, .null)]⟩ [(k, "object")] = .ok (.obj [(k, .null)]) ∧
    parseAIResponse ⟨.obj [(k, .arr elems)]⟩ [(k, "object")] = .ok (.obj [(k, .arr elems)]) := by
  refine ⟨rfl, rfl, ?_, ?_⟩
  · show checkFields (.obj [(k, .null)]) [(k, "object")] = .ok (.obj [(k, .null)])
    simp [checkFields, jsHasProp, jsGet, jsTypeof, List.lookup]
  · show checkFields (.obj [(k, .arr elems)]) [(k, "object")] = .ok (.obj [(k, .arr elems)])
    simp [checkFields, jsHasProp, jsGet, jsTypeof, List.lookup]

/-- Claim C10: on a string reply whose first-brace-to-last-brace span is
not valid JSON, the decoder surfaces the raw JSON.parse failure, an
error outside the four-kind DecodeError taxonomy of the spec. -/
theorem c10_raw_json_error_escapes :
    parseAIResponse ⟨.str "see \x7b\"a\":1\x7d oops\x7d"⟩ [("results", "array")] =
      .error .jsonSyntaxError ∧
    DecodeError.inSpecTaxonomy .jsonSyntaxError = false ∧
    DecodeError.inSpecTaxonomy .noJsonFound = true ∧
    DecodeError.inSpecTaxonomy .unexpectedFormat = true ∧
    (∀ k, DecodeError.inSpecTaxonomy (.missingField k) = true) ∧
    (∀ k t, DecodeError.inSpecTaxonomy (.wrongFieldType k t) = true) :=
  ⟨rfl, rfl, rfl, rfl, fun _ => rfl, fun _ _ => rfl⟩
